import Mathlib

/-!
Verification of the package classifier in src/main.rs.

The source computes over IEEE-754 binary64 (f64). We embed an f64 value as
either a finite value (held as an exact rational), a signed infinity, or NaN.
All comparisons the program performs follow the IEEE ordered-comparison
rules (any comparison with NaN is false); multiplication follows the IEEE
sign and special-value rules, with finite products kept exact. Every product
the program compares against its thresholds in the claims below is exactly
representable, so exact finite arithmetic is faithful at those points.
-/

/-- An IEEE-754 binary64 value: a finite value (exact rational), a signed
infinity, or NaN. -/
inductive F where
  | fin (q : ℚ)
  | inf
  | ninf
  | nan
deriving DecidableEq

/-- IEEE-754 multiplication on the embedded values: NaN propagates,
infinity times zero is NaN, infinities follow the sign rules, and finite
products are exact. -/
def F.mul : F → F → F
  | .nan, _ => .nan
  | _, .nan => .nan
  | .fin a, .fin b => .fin (a * b)
  | .fin a, .inf => if 0 < a then .inf else if a < 0 then .ninf else .nan
  | .fin a, .ninf => if 0 < a then .ninf else if a < 0 then .inf else .nan
  | .inf, .fin b => if 0 < b then .inf else if b < 0 then .ninf else .nan
  | .ninf, .fin b => if 0 < b then .ninf else if b < 0 then .inf else .nan
  | .inf, .inf => .inf
  | .inf, .ninf => .ninf
  | .ninf, .inf => .ninf
  | .ninf, .ninf => .inf

/-- IEEE-754 ordered comparison `a >= b`: false whenever either operand is
NaN, and otherwise the usual order with -inf below every finite value and
+inf above every finite value. -/
def F.ge : F → F → Bool
  | .nan, _ => false
  | _, .nan => false
  | .inf, _ => true
  | .fin a, .fin b => decide (b ≤ a)
  | .fin _, .inf => false
  | .fin _, .ninf => true
  | .ninf, .ninf => true
  | .ninf, _ => false

/-- Newtype for a dimension in centimeters, as in the source. -/
structure Centimeters where
  value : F
deriving DecidableEq

/-- Newtype for a mass in kilograms, as in the source. -/
structure Kilograms where
  value : F
deriving DecidableEq

/-- The closed three-variant category enumeration from the source. -/
inductive SortCategory where
  | Standard
  | Special
  | Rejected
deriving DecidableEq

/-- String representation of a category, as in SortCategory::as_str. -/
def SortCategory.as_str : SortCategory → String
  | .Standard => "STANDARD"
  | .Special => "SPECIAL"
  | .Rejected => "REJECTED"

/-- A package with three dimensions and a mass, as in the source. -/
structure Package where
  width : Centimeters
  height : Centimeters
  length : Centimeters
  mass : Kilograms

/-- Volume in cubic centimeters: width * height * length, left associated
as in the source. -/
def Package.volume (p : Package) : F :=
  F.mul (F.mul p.width.value p.height.value) p.length.value

/-- A package is bulky when its volume is at least 1,000,000 or any
dimension is at least 150, as in Package::is_bulky. -/
def Package.is_bulky (p : Package) : Bool :=
  F.ge p.volume (F.fin 1000000)
    || F.ge p.width.value (F.fin 150)
    || F.ge p.height.value (F.fin 150)
    || F.ge p.length.value (F.fin 150)

/-- A package is heavy when its mass is at least 20, as in
Package::is_heavy. -/
def Package.is_heavy (p : Package) : Bool :=
  F.ge p.mass.value (F.fin 20)

/-- The decision table from Package::sort_category. -/
def Package.sort_category (p : Package) : SortCategory :=
  match p.is_bulky, p.is_heavy with
  | true, true => .Rejected
  | true, false => .Special
  | false, true => .Special
  | false, false => .Standard

/-- The public entry point: builds a package from the four inputs and
returns the display string of its category, as in fn sort. -/
def sort (width height length mass : F) : String :=
  (Package.mk ⟨width⟩ ⟨height⟩ ⟨length⟩ ⟨mass⟩).sort_category.as_str

/-- Classification of a package whose four inputs are all finite. -/
def sortQ (width height length mass : ℚ) : SortCategory :=
  (Package.mk ⟨F.fin width⟩ ⟨F.fin height⟩ ⟨F.fin length⟩
    ⟨F.fin mass⟩).sort_category

/-- Restrictiveness order on categories: Standard < Special < Rejected. -/
def restrictiveness : SortCategory → Nat
  | .Standard => 0
  | .Special => 1
  | .Rejected => 2

/-! Helper lemmas about the embedded operations. -/

lemma F.mul_fin (a b : ℚ) : F.mul (F.fin a) (F.fin b) = F.fin (a * b) := rfl

lemma F.ge_fin (a b : ℚ) : F.ge (F.fin a) (F.fin b) = decide (b ≤ a) := rfl

lemma F.nan_mul (x : F) : F.mul F.nan x = F.nan := by cases x <;> rfl

lemma F.mul_nan (x : F) : F.mul x F.nan = F.nan := by cases x <;> rfl

lemma F.nan_ge (x : F) : F.ge F.nan x = false := by cases x <;> rfl

lemma F.ge_nan (x : F) : F.ge x F.nan = false := by cases x <;> rfl

lemma is_bulkyQ_iff (w h l m : ℚ) :
    (Package.mk ⟨F.fin w⟩ ⟨F.fin h⟩ ⟨F.fin l⟩ ⟨F.fin m⟩).is_bulky = true ↔
      1000000 ≤ w * h * l ∨ 150 ≤ w ∨ 150 ≤ h ∨ 150 ≤ l := by
  simp [Package.is_bulky, Package.volume, F.mul_fin, F.ge_fin, mul_assoc]
  tauto

lemma is_heavyQ_iff (w h l m : ℚ) :
    (Package.mk ⟨F.fin w⟩ ⟨F.fin h⟩ ⟨F.fin l⟩ ⟨F.fin m⟩).is_heavy = true ↔
      20 ≤ m := by
  simp [Package.is_heavy, F.ge_fin]

lemma restrictiveness_mono (p q : Package)
    (hb : p.is_bulky = true → q.is_bulky = true)
    (hh : p.is_heavy = true → q.is_heavy = true) :
    restrictiveness p.sort_category ≤ restrictiveness q.sort_category := by
  unfold Package.sort_category
  cases hpb : p.is_bulky <;> cases hph : p.is_heavy <;>
    cases hqb : q.is_bulky <;> cases hqh : q.is_heavy <;>
      simp_all [restrictiveness]

lemma sort_category_cases (p : Package) :
    p.sort_category = .Standard ∨ p.sort_category = .Special ∨
      p.sort_category = .Rejected := by
  cases h : p.sort_category <;> simp

/-- C1: the classifier follows the decision table: Rejected exactly when
both flags hold, Special exactly when one of the two flags holds, and
Standard exactly when neither holds. -/
theorem sort_category_decision_table (p : Package) :
    (p.sort_category = SortCategory.Rejected ↔
      p.is_bulky = true ∧ p.is_heavy = true) ∧
    (p.sort_category = SortCategory.Special ↔ p.is_bulky ≠ p.is_heavy) ∧
    (p.sort_category = SortCategory.Standard ↔
      p.is_bulky = false ∧ p.is_heavy = false) := by
  unfold Package.sort_category
  cases hb : p.is_bulky <;> cases hh : p.is_heavy <;> simp

/-- C2: is_bulky is exactly the disjunction of the inclusive volume test
against 1,000,000 and the three inclusive dimension tests against 150; for
finite inputs this is the rational condition with non-strict inequalities,
and each threshold value itself already counts as bulky. -/
theorem is_bulky_spec :
    (∀ p : Package,
      p.is_bulky =
        (F.ge (F.mul (F.mul p.width.value p.height.value) p.length.value)
            (F.fin 1000000)
          || F.ge p.width.value (F.fin 150)
          || F.ge p.height.value (F.fin 150)
          || F.ge p.length.value (F.fin 150))) ∧
    (∀ w h l m : ℚ,
      (Package.mk ⟨F.fin w⟩ ⟨F.fin h⟩ ⟨F.fin l⟩ ⟨F.fin m⟩).is_bulky = true ↔
        1000000 ≤ w * h * l ∨ 150 ≤ w ∨ 150 ≤ h ∨ 150 ≤ l) ∧
    (Package.mk ⟨F.fin 150⟩ ⟨F.fin 0⟩ ⟨F.fin 0⟩ ⟨F.fin 0⟩).is_bulky = true ∧
    (Package.mk ⟨F.fin 0⟩ ⟨F.fin 150⟩ ⟨F.fin 0⟩ ⟨F.fin 0⟩).is_bulky = true ∧
    (Package.mk ⟨F.fin 0⟩ ⟨F.fin 0⟩ ⟨F.fin 150⟩ ⟨F.fin 0⟩).is_bulky = true ∧
    (Package.mk ⟨F.fin 100⟩ ⟨F.fin 100⟩ ⟨F.fin 100⟩ ⟨F.fin 0⟩).is_bulky
      = true := by
  refine ⟨fun p => rfl, is_bulkyQ_iff, ?_, ?_, ?_, ?_⟩ <;>
    norm_num [Package.is_bulky, Package.volume, F.mul_fin, F.ge_fin]

/-- C3: is_heavy is exactly the inclusive mass test against 20; a mass of
exactly 20 is heavy. -/
theorem is_heavy_spec :
    (∀ p : Package, p.is_heavy = F.ge p.mass.value (F.fin 20)) ∧
    (∀ w h l m : ℚ,
      (Package.mk ⟨F.fin w⟩ ⟨F.fin h⟩ ⟨F.fin l⟩ ⟨F.fin m⟩).is_heavy = true ↔
        20 ≤ m) ∧
    (Package.mk ⟨F.fin 0⟩ ⟨F.fin 0⟩ ⟨F.fin 0⟩ ⟨F.fin 20⟩).is_heavy = true := by
  refine ⟨fun p => rfl, is_heavyQ_iff, ?_⟩
  norm_num [Package.is_heavy, F.ge_fin]

/-- C4: the seven concrete scenarios from the spec produce the stated
category strings. -/
theorem sort_scenarios :
    sort (F.fin 50) (F.fin 50) (F.fin 50) (F.fin 10) = "STANDARD" ∧
    sort (F.fin 100) (F.fin 100) (F.fin 100) (F.fin 10) = "SPECIAL" ∧
    sort (F.fin 160) (F.fin 50) (F.fin 50) (F.fin 10) = "SPECIAL" ∧
    sort (F.fin 50) (F.fin 50) (F.fin 50) (F.fin 25) = "SPECIAL" ∧
    sort (F.fin 160) (F.fin 50) (F.fin 50) (F.fin 25) = "REJECTED" ∧
    sort (F.fin 149) (F.fin 149) (F.fin 1) (F.fin (19.9 : ℚ)) = "STANDARD" ∧
    sort (F.fin 100) (F.fin 100) (F.fin 100) (F.fin 5) = "SPECIAL" := by
  refine ⟨?_, ?_, ?_, ?_, ?_, ?_, ?_⟩ <;>
    norm_num [sort, Package.sort_category, Package.is_bulky, Package.is_heavy,
      Package.volume, F.mul_fin, F.ge_fin, SortCategory.as_str]

/-- C5: for finite non-negative inputs, increasing any one input while the
other three are fixed never lowers the restrictiveness of the category
(Standard < Special < Rejected). -/
theorem sort_category_monotone (w h l m w' h' l' m' : ℚ)
    (hw0 : 0 ≤ w) (hh0 : 0 ≤ h) (hl0 : 0 ≤ l) (hm0 : 0 ≤ m) :
    (w ≤ w' →
      restrictiveness (sortQ w h l m) ≤ restrictiveness (sortQ w' h l m)) ∧
    (h ≤ h' →
      restrictiveness (sortQ w h l m) ≤ restrictiveness (sortQ w h' l m)) ∧
    (l ≤ l' →
      restrictiveness (sortQ w h l m) ≤ restrictiveness (sortQ w h l' m)) ∧
    (m ≤ m' →
      restrictiveness (sortQ w h l m) ≤ restrictiveness (sortQ w h l m')) := by
  have heavy_same : ∀ w1 h1 l1 w2 h2 l2 : ℚ,
      (Package.mk ⟨F.fin w1⟩ ⟨F.fin h1⟩ ⟨F.fin l1⟩ ⟨F.fin m⟩).is_heavy = true →
      (Package.mk ⟨F.fin w2⟩ ⟨F.fin h2⟩ ⟨F.fin l2⟩ ⟨F.fin m⟩).is_heavy
        = true := by
    intro w1 h1 l1 w2 h2 l2 hhm
    rw [is_heavyQ_iff] at hhm ⊢
    exact hhm
  refine ⟨?_, ?_, ?_, ?_⟩
  · intro hle
    unfold sortQ
    refine restrictiveness_mono _ _ ?_ (heavy_same w h l w' h l)
    intro hb
    rw [is_bulkyQ_iff] at hb ⊢
    rcases hb with hv | hwd | hhd | hld
    · exact Or.inl (hv.trans
        (mul_le_mul_of_nonneg_right (mul_le_mul_of_nonneg_right hle hh0) hl0))
    · exact Or.inr (Or.inl (hwd.trans hle))
    · exact Or.inr (Or.inr (Or.inl hhd))
    · exact Or.inr (Or.inr (Or.inr hld))
  · intro hle
    unfold sortQ
    refine restrictiveness_mono _ _ ?_ (heavy_same w h l w h' l)
    intro hb
    rw [is_bulkyQ_iff] at hb ⊢
    rcases hb with hv | hwd | hhd | hld
    · exact Or.inl (hv.trans
        (mul_le_mul_of_nonneg_right (mul_le_mul_of_nonneg_left hle hw0) hl0))
    · exact Or.inr (Or.inl hwd)
    · exact Or.inr (Or.inr (Or.inl (hhd.trans hle)))
    · exact Or.inr (Or.inr (Or.inr hld))
  · intro hle
    unfold sortQ
    refine restrictiveness_mono _ _ ?_ (heavy_same w h l w h l')
    intro hb
    rw [is_bulkyQ_iff] at hb ⊢
    rcases hb with hv | hwd | hhd | hld
    · exact Or.inl (hv.trans
        (mul_le_mul_of_nonneg_left hle (mul_nonneg hw0 hh0)))
    · exact Or.inr (Or.inl hwd)
    · exact Or.inr (Or.inr (Or.inl hhd))
    · exact Or.inr (Or.inr (Or.inr (hld.trans hle)))
  · intro hle
    unfold sortQ
    refine restrictiveness_mono _ _ ?_ ?_
    · intro hb
      rw [is_bulkyQ_iff] at hb ⊢
      exact hb
    · intro hhm
      rw [is_heavyQ_iff] at hhm ⊢
      exact hhm.trans hle

/-- Witness for C5 at a concrete instance: raising the width from 50 to
160 with the other inputs fixed at (50, 50, 10). -/
theorem sort_category_monotone_witness :
    (0:ℚ) ≤ 50 ∧ (0:ℚ) ≤ 10 ∧ (50:ℚ) ≤ 160 ∧
      restrictiveness (sortQ 50 50 50 10)
        ≤ restrictiveness (sortQ 160 50 50 10) :=
  ⟨by decide, by decide, by decide,
    (sort_category_monotone 50 50 50 10 160 50 50 10 (by decide) (by decide)
      (by decide) (by decide)).1 (by decide)⟩

/-- C6: NaN makes every >= comparison false, so a NaN dimension disables
the volume test and its own dimension test but leaves the other dimension
tests intact, a NaN mass is never heavy, and every package still gets one
of the three categories. -/
theorem nan_propagation :
    (∀ x : F, F.ge F.nan x = false ∧ F.ge x F.nan = false) ∧
    (∀ h l m : F,
      (Package.mk ⟨F.nan⟩ ⟨h⟩ ⟨l⟩ ⟨m⟩).is_bulky
        = (F.ge h (F.fin 150) || F.ge l (F.fin 150))) ∧
    (∀ w l m : F,
      (Package.mk ⟨w⟩ ⟨F.nan⟩ ⟨l⟩ ⟨m⟩).is_bulky
        = (F.ge w (F.fin 150) || F.ge l (F.fin 150))) ∧
    (∀ w h m : F,
      (Package.mk ⟨w⟩ ⟨h⟩ ⟨F.nan⟩ ⟨m⟩).is_bulky
        = (F.ge w (F.fin 150) || F.ge h (F.fin 150))) ∧
    (∀ w h l : F, (Package.mk ⟨w⟩ ⟨h⟩ ⟨l⟩ ⟨F.nan⟩).is_heavy = false) ∧
    (∀ p : Package, p.sort_category = SortCategory.Standard ∨
      p.sort_category = SortCategory.Special ∨
      p.sort_category = SortCategory.Rejected) := by
  refine ⟨fun x => ⟨F.nan_ge x, F.ge_nan x⟩, ?_, ?_, ?_, ?_,
    sort_category_cases⟩
  · intro h l m
    simp [Package.is_bulky, Package.volume, F.nan_mul, F.nan_ge]
  · intro w l m
    simp [Package.is_bulky, Package.volume, F.mul_nan, F.nan_mul, F.nan_ge,
      F.ge_nan]
  · intro w h m
    simp [Package.is_bulky, Package.volume, F.mul_nan, F.nan_ge, F.ge_nan]
  · intro w h l
    simp [Package.is_heavy, F.nan_ge]

/-- C7: sort is total: for every four inputs, including negative values,
zero, NaN and infinities, it returns one of the three category strings and
takes no error branch. -/
theorem sort_total (w h l m : F) :
    sort w h l m = "STANDARD" ∨ sort w h l m = "SPECIAL" ∨
      sort w h l m = "REJECTED" := by
  unfold sort
  rcases sort_category_cases (Package.mk ⟨w⟩ ⟨h⟩ ⟨l⟩ ⟨m⟩) with hc | hc | hc <;>
    rw [hc] <;> simp [SortCategory.as_str]

/-- C8: SortCategory is a closed three-variant enumeration whose display
strings are STANDARD, SPECIAL and REJECTED, and sort only ever returns one
of those three literals. -/
theorem category_closed :
    (∀ c : SortCategory, c = SortCategory.Standard ∨
      c = SortCategory.Special ∨ c = SortCategory.Rejected) ∧
    SortCategory.as_str SortCategory.Standard = "STANDARD" ∧
    SortCategory.as_str SortCategory.Special = "SPECIAL" ∧
    SortCategory.as_str SortCategory.Rejected = "REJECTED" ∧
    (∀ w h l m : F,
      sort w h l m = "STANDARD" ∨ sort w h l m = "SPECIAL" ∨
        sort w h l m = "REJECTED") := by
  refine ⟨?_, rfl, rfl, rfl, ?_⟩
  · intro c
    cases c <;> simp
  · intro w h l m
    unfold sort
    rcases sort_category_cases (Package.mk ⟨w⟩ ⟨h⟩ ⟨l⟩ ⟨m⟩) with
      hc | hc | hc <;> rw [hc] <;> simp [SortCategory.as_str]

/-- C9: sort is deterministic: two calls with equal inputs return the
equal string; the result depends on nothing but the four arguments. -/
theorem sort_deterministic (w h l m w' h' l' m' : F)
    (hw : w = w') (hh : h = h') (hl : l = l') (hm : m = m') :
    sort w h l m = sort w' h' l' m' := by
  rw [hw, hh, hl, hm]

/-- Witness for C9 at a concrete input. -/
theorem sort_deterministic_witness :
    sort (F.fin 50) (F.fin 50) (F.fin 50) (F.fin 10) =
      sort (F.fin 50) (F.fin 50) (F.fin 50) (F.fin 10) :=
  sort_deterministic _ _ _ _ _ _ _ _ rfl rfl rfl rfl

/-- C10: a package whose dimensions are all strictly below 150 can still be
bulky, because two negative dimensions multiply to a volume of 1,000,000:
width -200, height -100, length 50 is bulky with no validation rejecting
the negative inputs. -/
theorem negative_dimensions_can_be_bulky :
    F.ge (F.fin (-200)) (F.fin 150) = false ∧
    F.ge (F.fin (-100)) (F.fin 150) = false ∧
    F.ge (F.fin 50) (F.fin 150) = false ∧
    (Package.mk ⟨F.fin (-200)⟩ ⟨F.fin (-100)⟩ ⟨F.fin 50⟩ ⟨F.fin 10⟩).volume
      = F.fin 1000000 ∧
    (Package.mk ⟨F.fin (-200)⟩ ⟨F.fin (-100)⟩ ⟨F.fin 50⟩
      ⟨F.fin 10⟩).is_bulky = true ∧
    (Package.mk ⟨F.fin (-200)⟩ ⟨F.fin (-100)⟩ ⟨F.fin 50⟩
      ⟨F.fin 10⟩).sort_category = SortCategory.Special := by
  refine ⟨?_, ?_, ?_, ?_, ?_, ?_⟩ <;>
    norm_num [Package.sort_category, Package.is_bulky, Package.is_heavy,
      Package.volume, F.mul_fin, F.ge_fin]
